import Mathlib

/-!
Verification of `multiplatform-dlfcn-tests/testlib/testlib.c`.

The translation unit defines two exported C functions and declares no
global or static variables:

```c
int testlib_test1() { return 1337; }
int testlib_test2(int i1, int i2) { return i1 == i2; }
```

We embed the C fragment used by this file (integer literals, variable
reads, the `==` operator, `return`, assignment and sequencing) as a small
expression/statement language with a fuel-indexed evaluator over an
explicit global environment, and represent each function by its parameter
list and body.  C `int` values are modelled as unbounded `Int`: the only
operations performed (`==` and returning the literal `1337`) cannot
overflow a 32-bit `int`.
-/

/-- An environment binding C variable names to `int` values. -/
abbrev Env := List (String × Int)

/-- C expressions occurring in `testlib.c`: integer literals, variable
reads, and the equality operator `==` (which yields `1` or `0`). -/
inductive Expr where
  | const : Int → Expr
  | var : String → Expr
  | eq : Expr → Expr → Expr

/-- C statements: `return e;`, assignment `x = e;`, and sequencing.
The bodies in `testlib.c` consist of a single `return` each. -/
inductive Stmt where
  | ret : Expr → Stmt
  | assign : String → Expr → Stmt
  | seq : Stmt → Stmt → Stmt

/-- Update the binding of `x` in an environment (C assignment to a
declared variable). -/
def updateEnv (env : Env) (x : String) (v : Int) : Env :=
  env.map fun p => if p.1 = x then (x, v) else p

/-- Evaluate an expression with the given fuel, local environment and
global environment.  Locals shadow globals.  `none` means the evaluation
ran out of fuel or read an undeclared variable. -/
def evalExpr : Nat → Env → Env → Expr → Option Int
  | 0, _, _, _ => none
  | _ + 1, _, _, .const n => some n
  | _ + 1, l, g, .var x => (l ++ g).lookup x
  | fuel + 1, l, g, .eq a b =>
    match evalExpr fuel l g a, evalExpr fuel l g b with
    | some va, some vb => some (if va = vb then 1 else 0)
    | _, _ => none

/-- Outcome of executing a statement: the returned value, if the
statement returned, and the updated local and global environments. -/
structure ExecOut where
  retVal : Option Int
  locals : Env
  globals : Env

/-- Execute a statement with the given fuel.  `none` means the execution
ran out of fuel or faulted (read or wrote an undeclared variable). -/
def execStmt : Nat → Env → Env → Stmt → Option ExecOut
  | 0, _, _, _ => none
  | fuel + 1, l, g, .ret e =>
    match evalExpr fuel l g e with
    | some v => some ⟨some v, l, g⟩
    | none => none
  | fuel + 1, l, g, .assign x e =>
    match evalExpr fuel l g e with
    | some v =>
      if (l.lookup x).isSome then some ⟨none, updateEnv l x v, g⟩
      else if (g.lookup x).isSome then some ⟨none, l, updateEnv g x v⟩
      else none
    | none => none
  | fuel + 1, l, g, .seq s1 s2 =>
    match execStmt fuel l g s1 with
    | some o =>
      match o.retVal with
      | some _ => some o
      | none => execStmt fuel o.locals o.globals s2
    | none => none

/-- A C function: its parameter names and its body. -/
structure CFun where
  params : List String
  body : Stmt

/-- Call a C function: bind the arguments to the parameters, run the body
against the global environment `g`, and produce the returned `int`
together with the final global environment.  `none` means the call could
not complete normally (wrong arity, fault, missing `return`, or fuel
exhaustion). -/
def callFun (fuel : Nat) (g : Env) (f : CFun) (args : List Int) :
    Option (Int × Env) :=
  if args.length = f.params.length then
    match execStmt fuel (f.params.zip args) g f.body with
    | some o =>
      match o.retVal with
      | some v => some (v, o.globals)
      | none => none
    | none => none
  else
    none

/-- `testlib.c` declares no global or static variables. -/
def testlibGlobals : Env := []

/-- `int testlib_test1() { return 1337; }` -/
def testlib_test1 : CFun :=
  ⟨[], .ret (.const 1337)⟩

/-- `int testlib_test2(int i1, int i2) { return i1 == i2; }` -/
def testlib_test2 : CFun :=
  ⟨["i1", "i2"], .ret (.eq (.var "i1") (.var "i2"))⟩

/-! ### Fuel monotonicity of the evaluator -/

theorem evalExpr_mono {f1 f2 : Nat} {l g : Env} {e : Expr} {v : Int}
    (hle : f1 ≤ f2) (h : evalExpr f1 l g e = some v) :
    evalExpr f2 l g e = some v := by
  induction e generalizing f1 f2 v with
  | const n =>
    cases f1 with
    | zero => simp [evalExpr] at h
    | succ f1 =>
      cases f2 with
      | zero => omega
      | succ f2 => simpa [evalExpr] using h
  | var x =>
    cases f1 with
    | zero => simp [evalExpr] at h
    | succ f1 =>
      cases f2 with
      | zero => omega
      | succ f2 => simpa [evalExpr] using h
  | eq a b iha ihb =>
    cases f1 with
    | zero => simp [evalExpr] at h
    | succ f1 =>
      cases f2 with
      | zero => omega
      | succ f2 =>
        have hle' : f1 ≤ f2 := by omega
        simp only [evalExpr] at h ⊢
        cases hva : evalExpr f1 l g a with
        | none => rw [hva] at h; simp at h
        | some va =>
          cases hvb : evalExpr f1 l g b with
          | none => rw [hva, hvb] at h; simp at h
          | some vb =>
            rw [hva, hvb] at h
            rw [iha hle' hva, ihb hle' hvb]
            exact h

theorem execStmt_mono {f1 f2 : Nat} {l g : Env} {s : Stmt} {o : ExecOut}
    (hle : f1 ≤ f2) (h : execStmt f1 l g s = some o) :
    execStmt f2 l g s = some o := by
  induction s generalizing f1 f2 l g o with
  | ret e =>
    cases f1 with
    | zero => simp [execStmt] at h
    | succ f1 =>
      cases f2 with
      | zero => omega
      | succ f2 =>
        have hle' : f1 ≤ f2 := by omega
        simp only [execStmt] at h ⊢
        cases hv : evalExpr f1 l g e with
        | none => rw [hv] at h; simp at h
        | some v =>
          rw [hv] at h
          rw [evalExpr_mono hle' hv]
          exact h
  | assign x e =>
    cases f1 with
    | zero => simp [execStmt] at h
    | succ f1 =>
      cases f2 with
      | zero => omega
      | succ f2 =>
        have hle' : f1 ≤ f2 := by omega
        simp only [execStmt] at h ⊢
        cases hv : evalExpr f1 l g e with
        | none => rw [hv] at h; simp at h
        | some v =>
          rw [hv] at h
          rw [evalExpr_mono hle' hv]
          exact h
  | seq s1 s2 ih1 ih2 =>
    cases f1 with
    | zero => simp [execStmt] at h
    | succ f1 =>
      cases f2 with
      | zero => omega
      | succ f2 =>
        have hle' : f1 ≤ f2 := by omega
        simp only [execStmt] at h ⊢
        cases ho1 : execStmt f1 l g s1 with
        | none => rw [ho1] at h; simp at h
        | some o1 =>
          rw [ho1] at h
          rw [ih1 hle' ho1]
          cases hr : o1.retVal with
          | none =>
            simp only [hr] at h ⊢
            exact ih2 hle' h
          | some v =>
            simp only [hr] at h ⊢
            exact h

theorem callFun_mono {f1 f2 : Nat} {g : Env} {fn : CFun} {args : List Int}
    {x : Int × Env} (hle : f1 ≤ f2) (h : callFun f1 g fn args = some x) :
    callFun f2 g fn args = some x := by
  by_cases hlen : args.length = fn.params.length
  · simp only [callFun, if_pos hlen] at h ⊢
    cases ho : execStmt f1 (fn.params.zip args) g fn.body with
    | none => rw [ho] at h; simp at h
    | some o =>
      rw [ho] at h
      rw [execStmt_mono hle ho]
      exact h
  · simp only [callFun, if_neg hlen] at h
    simp at h

/-! ### Exact-fuel computations of the two calls -/

theorem callFun_testlib_test1_exact (g : Env) :
    callFun 2 g testlib_test1 [] = some (1337, g) := rfl

theorem callFun_testlib_test2_exact (g : Env) (i1 i2 : Int) :
    callFun 3 g testlib_test2 [i1, i2] =
      some (if i1 = i2 then 1 else 0, g) := rfl

/-! ### The claims -/

/-- Claim C1: for every pair of integer inputs `i1` and `i2`, calling
`testlib_test2(i1, i2)` against any global state, with any sufficient
fuel, returns normally, and the result is a true (nonzero) value exactly
when `i1` equals `i2` and a false (zero) value otherwise. -/
theorem testlib_test2_tests_equality (i1 i2 : Int) (k : Nat) (g : Env) :
    ∃ r g', callFun (k + 3) g testlib_test2 [i1, i2] = some (r, g') ∧
      (r ≠ 0 ↔ i1 = i2) := by
  refine ⟨if i1 = i2 then 1 else 0, g,
    callFun_mono (Nat.le_add_left 3 k) (callFun_testlib_test2_exact g i1 i2), ?_⟩
  by_cases h : i1 = i2 <;> simp [h]

/-- Claim C2: `testlib_test1` returns a constant: there is a single
integer `c` such that every invocation, whatever the fuel and whatever
the global state left by prior calls, returns `c`. -/
theorem testlib_test1_returns_constant :
    ∃ c : Int, ∀ (k : Nat) (g : Env), ∃ g',
      callFun (k + 2) g testlib_test1 [] = some (c, g') :=
  ⟨1337, fun k g =>
    ⟨g, callFun_mono (Nat.le_add_left 2 k) (callFun_testlib_test1_exact g)⟩⟩

/-- Claim C3: both exported functions are pure and deterministic: two
runs with identical arguments return identical results, with no
dependence on the global state or on how much fuel each run is given. -/
theorem testlib_calls_deterministic (k1 k2 : Nat) (g1 g2 : Env) (i1 i2 : Int) :
    Option.map Prod.fst (callFun (k1 + 2) g1 testlib_test1 []) =
      Option.map Prod.fst (callFun (k2 + 2) g2 testlib_test1 []) ∧
    Option.map Prod.fst (callFun (k1 + 3) g1 testlib_test2 [i1, i2]) =
      Option.map Prod.fst (callFun (k2 + 3) g2 testlib_test2 [i1, i2]) := by
  constructor
  · rw [callFun_mono (Nat.le_add_left 2 k1) (callFun_testlib_test1_exact g1),
      callFun_mono (Nat.le_add_left 2 k2) (callFun_testlib_test1_exact g2)]
    rfl
  · rw [callFun_mono (Nat.le_add_left 3 k1) (callFun_testlib_test2_exact g1 i1 i2),
      callFun_mono (Nat.le_add_left 3 k2) (callFun_testlib_test2_exact g2 i1 i2)]
    rfl

/-- Claim C4: calling `testlib_test1` or `testlib_test2` is
side-effect-free: every call leaves the global environment exactly as it
found it, and the library itself declares no mutable state at all. -/
theorem testlib_calls_side_effect_free (k : Nat) (g : Env) (i1 i2 : Int) :
    Option.map Prod.snd (callFun (k + 2) g testlib_test1 []) = some g ∧
    Option.map Prod.snd (callFun (k + 3) g testlib_test2 [i1, i2]) = some g ∧
    testlibGlobals = [] := by
  refine ⟨?_, ?_, rfl⟩
  · rw [callFun_mono (Nat.le_add_left 2 k) (callFun_testlib_test1_exact g)]
    rfl
  · rw [callFun_mono (Nat.le_add_left 3 k) (callFun_testlib_test2_exact g i1 i2)]
    rfl

/-- Claim C5: neither function can fail: for every integer input and
every global state, each call returns normally with an integer result
(no fault, missing return, or other failure inside the library). -/
theorem testlib_calls_cannot_fail (k : Nat) (g : Env) (i1 i2 : Int) :
    (∃ r1 g1, callFun (k + 2) g testlib_test1 [] = some (r1, g1)) ∧
    (∃ r2 g2, callFun (k + 3) g testlib_test2 [i1, i2] = some (r2, g2)) :=
  ⟨⟨1337, g, callFun_mono (Nat.le_add_left 2 k) (callFun_testlib_test1_exact g)⟩,
   ⟨if i1 = i2 then 1 else 0, g,
     callFun_mono (Nat.le_add_left 3 k) (callFun_testlib_test2_exact g i1 i2)⟩⟩

/-- Claim C6: both functions terminate on every input: a constant fuel
bound, independent of the arguments and the global state, already makes
every call complete. -/
theorem testlib_calls_terminate (k : Nat) (g : Env) (i1 i2 : Int) :
    (callFun (k + 3) g testlib_test1 []).isSome = true ∧
    (callFun (k + 3) g testlib_test2 [i1, i2]).isSome = true := by
  constructor
  · rw [callFun_mono (show (2 : Nat) ≤ k + 3 by omega)
      (callFun_testlib_test1_exact g)]
    rfl
  · rw [callFun_mono (Nat.le_add_left 3 k) (callFun_testlib_test2_exact g i1 i2)]
    rfl

/-- Claim C7: `testlib_test1()` returns exactly the integer `1337` on
every call, whatever the fuel and global state. -/
theorem testlib_test1_returns_1337 (k : Nat) (g : Env) :
    callFun (k + 2) g testlib_test1 [] = some (1337, g) :=
  callFun_mono (Nat.le_add_left 2 k) (callFun_testlib_test1_exact g)

/-- Claim C8: for every pair of integer inputs, the result of
`testlib_test2` is exactly `0` or `1`, never any other integer. -/
theorem testlib_test2_result_zero_or_one (k : Nat) (g : Env) (i1 i2 : Int) :
    ∃ r g', callFun (k + 3) g testlib_test2 [i1, i2] = some (r, g') ∧
      (r = 0 ∨ r = 1) := by
  refine ⟨if i1 = i2 then 1 else 0, g,
    callFun_mono (Nat.le_add_left 3 k) (callFun_testlib_test2_exact g i1 i2), ?_⟩
  by_cases h : i1 = i2 <;> simp [h]

/-- Claim C9: `testlib_test2` is commutative in its two arguments: for
every pair of integers, swapping the arguments gives the same outcome. -/
theorem testlib_test2_commutative (k : Nat) (g : Env) (i1 i2 : Int) :
    callFun (k + 3) g testlib_test2 [i1, i2] =
      callFun (k + 3) g testlib_test2 [i2, i1] := by
  rw [callFun_mono (Nat.le_add_left 3 k) (callFun_testlib_test2_exact g i1 i2),
    callFun_mono (Nat.le_add_left 3 k) (callFun_testlib_test2_exact g i2 i1)]
  by_cases h : i1 = i2
  · subst h
    rfl
  · rw [if_neg h, if_neg fun hh => h hh.symm]
